import Mathlib

/-!
Verification of the APImetrics import action pipeline.

Shallow embedding of the document-acquisition-and-upload pipeline found in
`src/index.js` (unbundled source) and `dist/index.js` (bundled copy).
External collaborators (the filesystem, HTTP, the subprocess layer, the
`js-yaml` / `ajv` / `ajv-formats` libraries and `JSON.parse` /
`JSON.stringify`) are modelled as capability parameters carried by a `World`
record; every pipeline step additionally records the observable I/O effects
it performs (file reads, subprocess executions, module provisioning
requests, HTTP GETs and POSTs) in an effect trace.
-/

namespace ApimAction

/-- Untyped JSON-like document tree: the universal in-memory representation
produced by the Document Loader and consumed by the Validator and Uploader. -/
inductive Json where
  | null : Json
  | bool (b : Bool) : Json
  | num (n : Int) : Json
  | str (s : String) : Json
  | arr (items : List Json) : Json
  | obj (fields : List (String × Json)) : Json

/-- Minimal model of a fetch `Response`: `ok`, `status`, `statusText`, and the
body text (also standing for the downloaded bytes / the JSON body). -/
structure HttpResponse where
  ok : Bool
  status : Nat
  statusText : String
  body : String
deriving DecidableEq, Repr

/-- Observable I/O effects performed by the pipeline, in order. `ensureMod`
records a call to `ensureModule(name, version)` (the request for an external
module, satisfied by `require` or by an npm install). -/
inductive Effect where
  | readFile (filePath : String) : Effect
  | execTool (bin : String) (args : List String) : Effect
  | ensureMod (moduleName version : String) : Effect
  | httpGet (url : String) : Effect
  | httpPost (url : String) (body : String) (token : String) : Effect
deriving DecidableEq, Repr

/-- The environment snapshot and the external capabilities the pipeline
consumes. Functions model the responses of the outside world: file contents,
subprocess stdout/stderr, HTTP responses, the JSON/YAML parsers, the
validator library (module name → schema → document → rendered violation
texts) and `JSON.stringify`. -/
structure World where
  env : List (String × String)
  platform : String
  arch : String
  cwd : String
  tempDir : String
  yttExists : Bool
  readFile : String → Except String String
  execTool : String → List String → Except String (String × String)
  fetch : String → HttpResponse
  post : String → String → HttpResponse
  jsonParse : String → Except String Json
  yamlParse : String → Except String Json
  validatorErrors : String → Json → Json → List String
  stringify : Json → String

/-! ## JavaScript string primitives

Kernel-computable embeddings of the string operations the source uses:
`toUpperCase`, `toLowerCase`, `trim`, a global single-character `replace`,
`startsWith`, `endsWith` and a single-character `split`. -/

/-- JS `s.toUpperCase()` (character-wise). -/
def jsToUpper (s : String) : String := ⟨s.data.map Char.toUpper⟩

/-- JS `s.toLowerCase()` (character-wise). -/
def jsToLower (s : String) : String := ⟨s.data.map Char.toLower⟩

/-- JS `s.trim()`: strips leading and trailing whitespace. -/
def jsTrim (s : String) : String :=
  ⟨((s.data.dropWhile Char.isWhitespace).reverse.dropWhile Char.isWhitespace).reverse⟩

/-- JS `s.replace(/c/g, d)` for single characters `c`, `d`. -/
def jsReplaceChar (s : String) (c d : Char) : String :=
  ⟨s.data.map (fun x => if x = c then d else x)⟩

/-- JS `s.startsWith(p)`. -/
def jsStartsWith (s p : String) : Bool := p.data.isPrefixOf s.data

/-- JS `s.endsWith(p)`. -/
def jsEndsWith (s p : String) : Bool := p.data.isSuffixOf s.data

/-- Worker for `jsSplitChar`: accumulates the current field in reverse. -/
def jsSplitCharAux (sep : Char) : List Char → List Char → List String
  | [], acc => [⟨acc.reverse⟩]
  | c :: rest, acc =>
    if c = sep then ⟨acc.reverse⟩ :: jsSplitCharAux sep rest []
    else jsSplitCharAux sep rest (c :: acc)

/-- JS `s.split(sep)` for a single-character separator: empty fields kept. -/
def jsSplitChar (s : String) (sep : Char) : List String :=
  jsSplitCharAux sep s.data []

/-! ## Configuration Reader — `getInput`, `parseBoolean` (src/index.js:12-24) -/

/-- Normalized environment key `INPUT_${name.replace(/ /g, "_").toUpperCase()}`
(src/index.js:13). -/
def inputKey (name : String) : String :=
  "INPUT_" ++ jsToUpper (jsReplaceChar name ' ' '_')

/-- Embedding of `getInput(name, options)` (src/index.js:12-19): looks up the normalized
environment key; throws `Missing required input: <name>` when required and
the value is absent, empty or whitespace-only; otherwise returns the value
or the empty string. -/
def getInput (env : List (String × String)) (name : String) (required : Bool) :
    Except String String :=
  let value := List.lookup (inputKey name) env
  if required && (value.isNone || jsTrim (value.getD "") == "") then
    .error ("Missing required input: " ++ name)
  else
    .ok (value.getD "")

/-- Embedding of `getInput(name)` without `required`: never throws (src/index.js:12-19). -/
def getInputOr (env : List (String × String)) (name : String) : String :=
  (List.lookup (inputKey name) env).getD ""

/-- Embedding of `parseBoolean(value, defaultValue)` (src/index.js:21-24). -/
def parseBoolean (value : String) (defaultValue : Bool) : Bool :=
  if value == "" then defaultValue
  else (["1", "true", "yes", "on"]).contains (jsToLower value)

/-! ## Tool Provisioner — `resolveYttAsset`, `ensureYtt` (src/index.js:50-95) -/

/-- Resolved release asset: download URL and asset file name. -/
structure Asset where
  url : String
  fileName : String
deriving DecidableEq, Repr

/-- Embedding of `resolveYttAsset(version)` (src/index.js:50-75): maps platform `darwin`
or `linux` and architecture `x64` (→ `amd64`) or `arm64` to the release
asset; any other platform or architecture throws. -/
def resolveYttAsset (platform arch version : String) : Except String Asset := do
  let osName ←
    if platform == "darwin" then Except.ok "darwin"
    else if platform == "linux" then Except.ok "linux"
    else Except.error ("Unsupported OS for ytt: " ++ platform)
  let archName ←
    if arch == "x64" then Except.ok "amd64"
    else if arch == "arm64" then Except.ok "arm64"
    else Except.error ("Unsupported architecture for ytt: " ++ arch)
  let fileName := "ytt-" ++ osName ++ "-" ++ archName
  Except.ok ⟨"https://github.com/carvel-dev/ytt/releases/download/" ++ version
      ++ "/" ++ fileName, fileName⟩

/-- Embedding of `ensureYtt(version)` (src/index.js:77-95): returns the working-directory
binary when present; otherwise resolves the asset (which can fail before any
download), performs one HTTP GET, and fails on a non-ok response. -/
def ensureYtt (w : World) (version : String) : Except String String × List Effect :=
  if w.yttExists then
    (.ok (w.cwd ++ "/ytt"), [])
  else
    match resolveYttAsset w.platform w.arch version with
    | .error e => (.error e, [])
    | .ok asset =>
      let resp := w.fetch asset.url
      if resp.ok then
        (.ok (w.tempDir ++ "/" ++ asset.fileName), [.httpGet asset.url])
      else
        (.error ("Failed to download ytt: " ++ toString resp.status ++ " "
            ++ resp.statusText), [.httpGet asset.url])

/-! ## Template Renderer — `renderWithYtt` (src/index.js:97-119) -/

/-- Extra arguments: `yttArgs.split(" ").filter(item => item.trim() !== "")`
(src/index.js:106). -/
def splitArgs (yttArgs : String) : List String :=
  (jsSplitChar yttArgs ' ').filter (fun item => jsTrim item != "")

/-- The argument list built at src/index.js:99-108. -/
def yttArgList (templatePath valuesPath yttArgs : String) : List String :=
  ["-f", templatePath]
    ++ (if valuesPath != "" then ["-f", valuesPath] else [])
    ++ (if yttArgs != "" then splitArgs yttArgs else [])

/-- Embedding of `renderWithYtt(...)` (src/index.js:97-119): obtains the binary, executes
it, and returns captured stdout verbatim (stderr only logged). -/
def renderWithYtt (w : World) (templatePath valuesPath yttArgs yttVersion : String) :
    Except String String × List Effect :=
  match ensureYtt w yttVersion with
  | (.error e, effs) => (.error e, effs)
  | (.ok yttBin, effs) =>
    let args := yttArgList templatePath valuesPath yttArgs
    match w.execTool yttBin args with
    | .error e => (.error e, effs ++ [.execTool yttBin args])
    | .ok out => (.ok out.fst, effs ++ [.execTool yttBin args])

/-! ## Document Loader — `loadDocument` (src/index.js:121-131) -/

/-- Detected source format. -/
inductive Format where
  | json : Format
  | yaml : Format
deriving DecidableEq, Repr

/-- The parsed document tagged with its detected format. -/
structure Loaded where
  data : Json
  format : Format

/-- The detection test at src/index.js:123:
`(fileHint && fileHint.endsWith(".json")) || trimmed.startsWith("{")`. -/
def detectIsJson (raw fileHint : String) : Bool :=
  (fileHint != "" && jsEndsWith fileHint ".json") || jsStartsWith (jsTrim raw) "\x7b"

/-- Embedding of `loadDocument(raw, fileHint)` (src/index.js:121-131), parameterized by the
external `JSON.parse` and `js-yaml` parsers. The YAML path first provisions
the `js-yaml@4.1.0` module. -/
def loadDocument (jsonParse yamlParse : String → Except String Json)
    (raw fileHint : String) : Except String Loaded × List Effect :=
  if detectIsJson raw fileHint then
    ((jsonParse raw).map (fun d => ⟨d, Format.json⟩), [])
  else
    ((yamlParse raw).map (fun d => ⟨d, Format.yaml⟩),
      [.ensureMod "js-yaml" "4.1.0"])

/-! ## Schema Validator — `validateSchema`
(src/index.js:133-151 and dist/index.js:213-231) -/

/-- Options object passed to the validator constructor:
`{ allErrors: true, strict: false }` in both copies. -/
structure AjvOptions where
  allErrors : Bool
  strict : Bool
deriving DecidableEq, Repr

/-- Which validator stack a copy of the code provisions: the validator module
and version, the formats module and version, and the constructor options. -/
structure ValidatorSetup where
  validatorModule : String
  validatorVersion : String
  formatsModule : String
  formatsVersion : String
  options : AjvOptions
deriving DecidableEq, Repr

/-- src/index.js:140-142: `ensureModule("ajv", "8.12.0")`,
`ensureModule("ajv-formats", "2.1.1")`, `new Ajv({allErrors: true, strict: false})`. -/
def srcValidatorSetup : ValidatorSetup :=
  ⟨"ajv", "8.12.0", "ajv-formats", "2.1.1", ⟨true, false⟩⟩

/-- dist/index.js:220-222: `ensureModule("ajv-draft-04", "1.0.0")`,
`ensureModule("ajv-formats", "2.1.1")`, `new AjvDraft04({allErrors: true, strict: false})`. -/
def distValidatorSetup : ValidatorSetup :=
  ⟨"ajv-draft-04", "1.0.0", "ajv-formats", "2.1.1", ⟨true, false⟩⟩

/-- Model of `ajv.errorsText(errors, {separator})`: joins the rendered
violation texts with the separator. -/
def joinSep (sep : String) : List String → String
  | [] => ""
  | [e] => e
  | e :: rest => e ++ sep ++ joinSep sep rest

/-- Embedding of `validateSchema(document, schemaUrl)` (src/index.js:133-151): fetches the
schema, parses the response body as JSON, provisions the validator stack of
`setup`, runs validation collecting every violation, and on any violation
throws `Schema validation failed:` followed by the newline-joined report. -/
def validateSchemaRun (setup : ValidatorSetup) (w : World) (document : Json)
    (schemaUrl : String) : Except String Unit × List Effect :=
  let resp := w.fetch schemaUrl
  if resp.ok then
    match w.jsonParse resp.body with
    | .error e => (.error e, [.httpGet schemaUrl])
    | .ok schema =>
      let effs : List Effect :=
        [.httpGet schemaUrl,
         .ensureMod setup.validatorModule setup.validatorVersion,
         .ensureMod setup.formatsModule setup.formatsVersion]
      let errs := w.validatorErrors setup.validatorModule schema document
      if errs.isEmpty then
        (.ok (), effs)
      else
        (.error ("Schema validation failed:\n" ++ joinSep "\n" errs), effs)
  else
    (.error ("Failed to fetch schema: " ++ toString resp.status ++ " "
        ++ resp.statusText), [.httpGet schemaUrl])

/-! ## Uploader — `uploadDocument` (src/index.js:153-169) -/

/-- The literal URL at src/index.js:154: the upload destination is this
constant; `uploadDocument` takes no endpoint parameter. -/
def importEndpoint : String := "https://client.apimetrics.io/api/2/import"

/-- Embedding of `uploadDocument(document, token)` (src/index.js:153-169): serializes the
document, POSTs it to the fixed URL with the bearer token, fails on a non-ok
response with status, status text and body, and otherwise returns the
response body text. -/
def uploadDocument (w : World) (document : Json) (token : String) :
    Except String String × List Effect :=
  let body := w.stringify document
  let resp := w.post importEndpoint body
  let effs : List Effect := [.httpPost importEndpoint body token]
  if resp.ok then
    (.ok resp.body, effs)
  else
    (.error ("Upload failed: " ++ toString resp.status ++ " "
        ++ resp.statusText ++ "\n" ++ resp.body), effs)

/-! ## Pipeline Orchestrator — `run` (src/index.js:171-207) -/

/-- Fallback of the form `getInput("schema_url") || default` (src/index.js:177-178). -/
def orDefault (v d : String) : String :=
  if v == "" then d else v

/-- Default schema URL (src/index.js:177). -/
def defaultSchemaUrl : String :=
  "https://client.apimetrics.io/api/2/import/schema.json"

/-- Default ytt version (src/index.js:178). -/
def defaultYttVersion : String := "v0.48.0"

/-- The configuration snapshot taken at the start of `run` (src/index.js:172-179). -/
structure Config where
  file : String
  template : String
  templateValues : String
  token : String
  validate : Bool
  schemaUrl : String
  yttVersion : String
  yttArgs : String
deriving DecidableEq, Repr

/-- The input reads at src/index.js:172-179, in source order: `file`,
`template`, `template_values`, then `token` (required — the only read that
can fail), then `validate_schema`, `schema_url`, `ytt_version`, `ytt_args`. -/
def configPhase (env : List (String × String)) : Except String Config := do
  let fileInput := getInputOr env "file"
  let templateInput := getInputOr env "template"
  let valuesInput := getInputOr env "template_values"
  let token ← getInput env "token" true
  let validate := parseBoolean (getInputOr env "validate_schema") true
  let schemaUrl := orDefault (getInputOr env "schema_url") defaultSchemaUrl
  let yttVersion := orDefault (getInputOr env "ytt_version") defaultYttVersion
  let yttArgs := getInputOr env "ytt_args"
  Except.ok ⟨fileInput, templateInput, valuesInput, token, validate,
    schemaUrl, yttVersion, yttArgs⟩

/-- Document acquisition (src/index.js:185-193): render the template when one
is configured (the source hint becomes the template path), otherwise read the
configured file (the source hint is the file path). -/
def acquireDocument (w : World) (cfg : Config) :
    Except String (String × String) × List Effect :=
  if cfg.template != "" then
    match renderWithYtt w cfg.template cfg.templateValues cfg.yttArgs cfg.yttVersion with
    | (.error e, effs) => (.error e, effs)
    | (.ok out, effs) => (.ok (out, cfg.template), effs)
  else
    match w.readFile cfg.file with
    | .error e => (.error e, [.readFile cfg.file])
    | .ok content => (.ok (content, cfg.file), [.readFile cfg.file])

/-- The final console report (src/index.js:202-206): the trimmed response
text when non-blank, else `Upload complete.`. -/
def finalizeOutput (resultText : String) : String :=
  if resultText != "" && jsTrim resultText != "" then jsTrim resultText
  else "Upload complete."

/-- The body of `run` after the configuration reads (src/index.js:181-206):
the either-file-or-template guard, acquisition, parsing, optional validation,
and upload, threading the effect trace. -/
def pipelineBody (setup : ValidatorSetup) (w : World) (cfg : Config) :
    Except String String × List Effect :=
  if cfg.template == "" && cfg.file == "" then
    (.error "Provide either \x27file\x27 or \x27template\x27.", [])
  else
    match acquireDocument w cfg with
    | (.error e, aeffs) => (.error e, aeffs)
    | (.ok (raw, hint), aeffs) =>
      match loadDocument w.jsonParse w.yamlParse raw hint with
      | (.error e, leffs) => (.error e, aeffs ++ leffs)
      | (.ok loaded, leffs) =>
        if cfg.validate then
          match validateSchemaRun setup w loaded.data cfg.schemaUrl with
          | (.error e, veffs) => (.error e, aeffs ++ leffs ++ veffs)
          | (.ok _, veffs) =>
            match uploadDocument w loaded.data cfg.token with
            | (.error e, ueffs) => (.error e, aeffs ++ leffs ++ veffs ++ ueffs)
            | (.ok txt, ueffs) =>
              (.ok (finalizeOutput txt), aeffs ++ leffs ++ veffs ++ ueffs)
        else
          match uploadDocument w loaded.data cfg.token with
          | (.error e, ueffs) => (.error e, aeffs ++ leffs ++ ueffs)
          | (.ok txt, ueffs) => (.ok (finalizeOutput txt), aeffs ++ leffs ++ ueffs)

/-- Embedding of `run()` (src/index.js:171-207): the configuration phase followed by the
pipeline body, parameterized by the validator stack the copy provisions. -/
def runPipeline (setup : ValidatorSetup) (w : World) :
    Except String String × List Effect :=
  match configPhase w.env with
  | .error e => (.error e, [])
  | .ok cfg => pipelineBody setup w cfg

/-- The unbundled source pipeline (src/index.js). -/
def srcRun (w : World) : Except String String × List Effect :=
  runPipeline srcValidatorSetup w

/-- The bundled pipeline (dist/index.js). -/
def distRun (w : World) : Except String String × List Effect :=
  runPipeline distValidatorSetup w

/-! ## Concrete worlds for evaluation -/

/-- A small concrete document. -/
def sampleDoc : Json := Json.obj [("a", Json.num 1)]

/-- A concrete Draft-04 schema value (as parsed from the schema URL body). -/
def sampleSchema : Json :=
  Json.obj [("$schema", Json.str "http://json-schema.org/draft-04/schema#")]

/-- A successful HTTP response with the given body. -/
def okResp (body : String) : HttpResponse := ⟨true, 200, "OK", body⟩

/-- Base world: the configured file `doc.json` holds a JSON object, schema
validation is disabled, every HTTP call succeeds. -/
def baseWorld : World where
  env := [("INPUT_FILE", "doc.json"), ("INPUT_TOKEN", "t"),
          ("INPUT_VALIDATE_SCHEMA", "false")]
  platform := "linux"
  arch := "x64"
  cwd := "/work"
  tempDir := "/tmp/apim"
  yttExists := false
  readFile := fun _ => .ok "\x7b\"a\": 1\x7d"
  execTool := fun _ _ => .error "no tool available"
  fetch := fun _ => okResp "\x7b\x7d"
  post := fun _ _ => okResp "imported"
  jsonParse := fun _ => .ok sampleDoc
  yamlParse := fun _ => .ok sampleDoc
  validatorErrors := fun _ _ _ => []
  stringify := fun _ => "\x7b\"a\":1\x7d"

/-- Variant of `baseWorld` with the `endpoint` input set to a non-default URL. -/
def endpointWorld : World :=
  { baseWorld with
    env := [("INPUT_FILE", "doc.json"), ("INPUT_TOKEN", "t"),
            ("INPUT_VALIDATE_SCHEMA", "false"),
            ("INPUT_ENDPOINT", "https://example.org/import")] }

/-- World exercising the src/dist divergence: schema validation enabled
(default) and the external validator capability reflecting the two provisioned
libraries' disagreement on a Draft-04 schema (`ajv-draft-04@1.0.0` accepts it;
`ajv@8.12.0` does not support Draft-04 and reports a failure). -/
def divergenceWorld : World :=
  { baseWorld with
    env := [("INPUT_FILE", "doc.json"), ("INPUT_TOKEN", "t")]
    fetch := fun _ => okResp "\x7b\"$schema\": \"http://json-schema.org/draft-04/schema#\"\x7d"
    jsonParse := fun s =>
      if s == "\x7b\"a\": 1\x7d" then .ok sampleDoc else .ok sampleSchema
    validatorErrors := fun m _ _ =>
      if m == "ajv-draft-04" then []
      else ["data reported invalid under the non-draft-04 compiler"] }

/-- World whose environment defines no inputs at all. -/
def emptyEnvWorld : World := { baseWorld with env := [] }

/-- World on an unsupported operating system, with no local ytt binary and a
template configured. -/
def win32World : World :=
  { baseWorld with
    env := [("INPUT_TEMPLATE", "tpl"), ("INPUT_TOKEN", "t")]
    platform := "win32" }

/-- World whose validator reports three independent violations. -/
def threeErrWorld : World :=
  { baseWorld with validatorErrors := fun _ _ _ => ["e1", "e2", "e3"] }

end ApimAction

deriving instance DecidableEq for Except

namespace ApimAction

/-! ## Helper lemmas -/

/-- The body of `ensureYtt` never performs an HTTP POST. -/
theorem httpPost_not_mem_ensureYtt (w : World) (v u b t : String) :
    Effect.httpPost u b t ∉ (ensureYtt w v).2 := by
  unfold ensureYtt
  dsimp only
  split
  · simp
  · split
    · simp
    · split <;> simp

/-- The body of `renderWithYtt` never performs an HTTP POST. -/
theorem httpPost_not_mem_renderWithYtt (w : World) (tp vp ya yv u b t : String) :
    Effect.httpPost u b t ∉ (renderWithYtt w tp vp ya yv).2 := by
  unfold renderWithYtt
  have hy := httpPost_not_mem_ensureYtt w yv u b t
  split
  next e effs heq =>
    rw [heq] at hy
    exact hy
  next yttBin effs heq =>
    rw [heq] at hy
    dsimp only
    split <;> simp_all

/-- Document acquisition never performs an HTTP POST. -/
theorem httpPost_not_mem_acquireDocument (w : World) (cfg : Config) (u b t : String) :
    Effect.httpPost u b t ∉ (acquireDocument w cfg).2 := by
  unfold acquireDocument
  split
  · have hr := httpPost_not_mem_renderWithYtt w cfg.template cfg.templateValues
      cfg.yttArgs cfg.yttVersion u b t
    split
    next e effs heq => rw [heq] at hr; exact hr
    next out effs heq => rw [heq] at hr; exact hr
  · split <;> simp

/-- Document loading never performs an HTTP POST. -/
theorem httpPost_not_mem_loadDocument (jp yp : String → Except String Json)
    (raw hint u b t : String) :
    Effect.httpPost u b t ∉ (loadDocument jp yp raw hint).2 := by
  unfold loadDocument
  split <;> simp

/-- Schema validation never performs an HTTP POST. -/
theorem httpPost_not_mem_validateSchemaRun (setup : ValidatorSetup) (w : World)
    (doc : Json) (url u b t : String) :
    Effect.httpPost u b t ∉ (validateSchemaRun setup w doc url).2 := by
  unfold validateSchemaRun
  dsimp only
  split
  · split
    · simp
    · split <;> simp
  · simp

/-- When the validation flag is off, the pipeline body never consults the
validator setup. -/
theorem pipelineBody_validate_false (s d : ValidatorSetup) (w : World) (cfg : Config)
    (h : cfg.validate = false) : pipelineBody s w cfg = pipelineBody d w cfg := by
  simp [pipelineBody, h]

/-- Joining a header onto a non-empty newline-joined report. -/
theorem joinSep_cons (sep hd : String) (errs : List String) (hne : errs ≠ []) :
    hd ++ sep ++ joinSep sep errs = joinSep sep (hd :: errs) := by
  cases errs with
  | nil => exact absurd rfl hne
  | cons e rest => cases rest <;> simp [joinSep, String.append_assoc]

/-! ## Claim theorems -/

/-- C1: the claim says the upload destination is taken from the `endpoint`
input. In the code `uploadDocument` takes no endpoint parameter and always
POSTs to the fixed `importEndpoint` URL; the pipeline never reads the
`endpoint` input, so a configuration with `INPUT_ENDPOINT` set to a
non-default URL still uploads to the fixed URL. This contradicts the
repository's own README, which documents `endpoint` as an override input. -/
theorem upload_destination_ignores_endpoint_input :
    (∀ (w : World) (doc : Json) (token : String),
      (uploadDocument w doc token).2 =
        [Effect.httpPost importEndpoint (w.stringify doc) token]) ∧
    importEndpoint = "https://client.apimetrics.io/api/2/import" ∧
    List.lookup "INPUT_ENDPOINT" endpointWorld.env = some "https://example.org/import" ∧
    runPipeline srcValidatorSetup endpointWorld =
      (.ok "imported",
       [Effect.readFile "doc.json",
        Effect.httpPost importEndpoint "\x7b\"a\":1\x7d" "t"]) ∧
    "https://example.org/import" ≠ importEndpoint := by
  refine ⟨?_, rfl, by decide, by decide, by decide⟩
  intro w doc token
  unfold uploadDocument
  dsimp only
  split <;> rfl

/-- C2: the claim says the Schema Validator compiles every fetched schema
under JSON Schema Draft-04 semantics (with formats enabled and strictness
disabled). The bundled copy provisions `ajv-draft-04@1.0.0`, but the
unbundled source provisions plain `ajv@8.12.0`, which does not implement
Draft-04 semantics; both copies do pass `allErrors: true, strict: false` and
provision `ajv-formats@2.1.1`. The final conjunct evaluates the source
validator on a concrete run, showing it requests the `ajv` module. -/
theorem src_validator_not_draft04 :
    srcValidatorSetup.validatorModule = "ajv" ∧
    srcValidatorSetup.validatorVersion = "8.12.0" ∧
    srcValidatorSetup.validatorModule ≠ "ajv-draft-04" ∧
    distValidatorSetup.validatorModule = "ajv-draft-04" ∧
    distValidatorSetup.validatorVersion = "1.0.0" ∧
    srcValidatorSetup.options = ⟨true, false⟩ ∧
    distValidatorSetup.options = ⟨true, false⟩ ∧
    srcValidatorSetup.formatsModule = "ajv-formats" ∧
    distValidatorSetup.formatsModule = "ajv-formats" ∧
    (validateSchemaRun srcValidatorSetup divergenceWorld sampleDoc defaultSchemaUrl).2 =
      [Effect.httpGet defaultSchemaUrl,
       Effect.ensureMod "ajv" "8.12.0",
       Effect.ensureMod "ajv-formats" "2.1.1"] := by
  decide

/-- C3 counterexample: the bundled and unbundled pipelines are not
behaviorally equivalent. On a world where schema validation is enabled and
the external validator capability reflects the provisioned libraries'
disagreement on a Draft-04 schema, the source pipeline fails validation and
uploads nothing while the bundled pipeline uploads successfully — and their
effect traces request different validator modules. -/
theorem src_dist_not_equivalent :
    srcRun divergenceWorld ≠ distRun divergenceWorld ∧
    (srcRun divergenceWorld).1 =
      .error ("Schema validation failed:\n"
        ++ "data reported invalid under the non-draft-04 compiler") ∧
    (distRun divergenceWorld).1 = .ok "imported" ∧
    Effect.ensureMod "ajv" "8.12.0" ∈ (srcRun divergenceWorld).2 ∧
    Effect.ensureMod "ajv-draft-04" "1.0.0" ∈ (distRun divergenceWorld).2 := by
  decide

/-- C3 amended: the two copies are behaviorally equivalent except for the
Schema Validator's validator module — both are the same pipeline function of
the validator setup, the setups agree on the formats module and the
constructor options, they differ exactly in the validator module
(`ajv@8.12.0` in src vs `ajv-draft-04@1.0.0` in dist), and whenever the
validation flag resolves to false the two pipelines agree on every world. -/
theorem src_dist_equiv_except_validator_module :
    (∀ (w : World) (cfg : Config), configPhase w.env = .ok cfg →
      cfg.validate = false → srcRun w = distRun w) ∧
    srcRun = runPipeline srcValidatorSetup ∧
    distRun = runPipeline distValidatorSetup ∧
    srcValidatorSetup.validatorModule ≠ distValidatorSetup.validatorModule ∧
    srcValidatorSetup.formatsModule = distValidatorSetup.formatsModule ∧
    srcValidatorSetup.formatsVersion = distValidatorSetup.formatsVersion ∧
    srcValidatorSetup.options = distValidatorSetup.options := by
  refine ⟨?_, rfl, rfl, by decide, rfl, rfl, rfl⟩
  intro w cfg hc hv
  unfold srcRun distRun runPipeline
  rw [hc]
  exact pipelineBody_validate_false _ _ _ _ hv

/-- C3 witness: the amended equivalence applied at `baseWorld`, whose
configuration disables schema validation. -/
theorem src_dist_equiv_except_validator_module_witness :
    configPhase baseWorld.env =
      .ok ⟨"doc.json", "", "", "t", false, defaultSchemaUrl, defaultYttVersion, ""⟩ ∧
    srcRun baseWorld = distRun baseWorld := by
  refine ⟨by decide, ?_⟩
  exact src_dist_equiv_except_validator_module.1 baseWorld
    ⟨"doc.json", "", "", "t", false, defaultSchemaUrl, defaultYttVersion, ""⟩
    (by decide) rfl

/-- C4: the Document Loader treats the input as JSON exactly when the source
hint ends with `.json` or the trimmed raw text begins with a left brace, and
as YAML otherwise; in particular, text beginning with a left brace is parsed
as JSON even without a `.json` hint, text with a `.json` hint is parsed as
JSON even when it does not begin with a left brace, and in that case an
invalid-JSON parse failure propagates. -/
theorem loadDocument_format_detection
    (jp yp : String → Except String Json) (raw hint : String) :
    (detectIsJson raw hint
      = (jsEndsWith hint ".json" || jsStartsWith (jsTrim raw) "\x7b")) ∧
    (detectIsJson raw hint = true →
      loadDocument jp yp raw hint = ((jp raw).map (fun d => ⟨d, Format.json⟩), [])) ∧
    (detectIsJson raw hint = false →
      loadDocument jp yp raw hint =
        ((yp raw).map (fun d => ⟨d, Format.yaml⟩), [.ensureMod "js-yaml" "4.1.0"])) ∧
    (jsStartsWith (jsTrim raw) "\x7b" = true →
      (loadDocument jp yp raw hint).1 = (jp raw).map (fun d => ⟨d, Format.json⟩)) ∧
    (jsEndsWith hint ".json" = true →
      (loadDocument jp yp raw hint).1 = (jp raw).map (fun d => ⟨d, Format.json⟩)) ∧
    (∀ e, jsEndsWith hint ".json" = true → jp raw = .error e →
      (loadDocument jp yp raw hint).1 = .error e) := by
  have hdet : detectIsJson raw hint
      = (jsEndsWith hint ".json" || jsStartsWith (jsTrim raw) "\x7b") := by
    unfold detectIsJson
    by_cases h : hint = ""
    · subst h
      have he : jsEndsWith "" ".json" = false := by decide
      simp [he]
    · have hb : (hint == "") = false := beq_eq_false_iff_ne.mpr h
      simp [bne, hb]
  refine ⟨hdet, ?_, ?_, ?_, ?_, ?_⟩
  · intro h
    simp [loadDocument, h]
  · intro h
    simp [loadDocument, h]
  · intro h
    have hd : detectIsJson raw hint = true := by rw [hdet]; simp [h]
    simp [loadDocument, hd]
  · intro h
    have hd : detectIsJson raw hint = true := by rw [hdet]; simp [h]
    simp [loadDocument, hd]
  · intro e h hp
    have hd : detectIsJson raw hint = true := by rw [hdet]; simp [h]
    simp [loadDocument, hd, hp, Except.map]

/-- C4 witness: a `.json` hint forces the JSON parser even on text not
beginning with a brace (and its failure propagates), and brace-initial text
is detected as JSON even with no hint. -/
theorem loadDocument_format_detection_witness :
    (loadDocument (fun _ => Except.error "bad json") (fun _ => Except.ok sampleDoc)
        "a: 1" "doc.json").1 = Except.error "bad json" ∧
    detectIsJson "  \x7b\"a\": 1\x7d" "" = true ∧
    detectIsJson "a: 1" "" = false := by
  refine ⟨?_, ?_, by decide⟩
  · exact (loadDocument_format_detection (fun _ => Except.error "bad json")
      (fun _ => Except.ok sampleDoc) "a: 1" "doc.json").2.2.2.2.2
      "bad json" (by decide) rfl
  · have h := (loadDocument_format_detection (fun _ => Except.ok sampleDoc)
      (fun _ => Except.ok sampleDoc) "  \x7b\"a\": 1\x7d" "").1
    rw [h]; decide

/-- C5: `parseBoolean` returns the supplied default on the empty string;
on a non-empty string it returns true exactly when the lower-cased value is
one of `1`, `true`, `yes`, `on`, and false for every other non-empty
string. -/
theorem parseBoolean_spec (v : String) (d : Bool) :
    parseBoolean "" d = d ∧
    (v ≠ "" → ((parseBoolean v d = true)
      ↔ jsToLower v ∈ (["1", "true", "yes", "on"] : List String))) ∧
    (v ≠ "" → jsToLower v ∉ (["1", "true", "yes", "on"] : List String) →
      parseBoolean v d = false) := by
  refine ⟨rfl, ?_, ?_⟩
  · intro h
    simp [parseBoolean, h]
  · intro h h2
    simp [parseBoolean, h, h2]

/-- C5 witness: empty input yields either default; `TRUE` is accepted
case-insensitively; a non-member non-empty string yields false. -/
theorem parseBoolean_spec_witness :
    parseBoolean "" true = true ∧ parseBoolean "" false = false ∧
    parseBoolean "TRUE" false = true ∧ parseBoolean "nope" true = false := by
  refine ⟨(parseBoolean_spec "x" true).1, (parseBoolean_spec "x" false).1, ?_, ?_⟩
  · exact ((parseBoolean_spec "TRUE" false).2.1 (by decide)).mpr (by decide)
  · exact (parseBoolean_spec "nope" true).2.2 (by decide) (by decide)

/-- C6: `getInput` with `required: true` fails with the exact message
`Missing required input: <name>` whenever the environment value is absent or
blank (empty or whitespace-only, since the blank test is on the trimmed
value); when not required and absent it returns the empty string. -/
theorem getInput_required_spec (env : List (String × String)) (name : String) :
    (List.lookup (inputKey name) env = none →
      getInput env name true = .error ("Missing required input: " ++ name)) ∧
    (jsTrim ((List.lookup (inputKey name) env).getD "") = "" →
      getInput env name true = .error ("Missing required input: " ++ name)) ∧
    (List.lookup (inputKey name) env = none → getInput env name false = .ok "") := by
  refine ⟨?_, ?_, ?_⟩
  · intro h
    simp [getInput, h]
  · intro h
    simp [getInput, h]
  · intro h
    simp [getInput, h]

/-- C6 witness: absent, whitespace-only and empty `token` values all fail
with the message naming `token`; an absent non-required `file` input yields
the empty string. -/
theorem getInput_required_spec_witness :
    getInput [] "token" true = .error "Missing required input: token" ∧
    getInput [("INPUT_TOKEN", "   ")] "token" true
      = .error "Missing required input: token" ∧
    getInput [("INPUT_TOKEN", "")] "token" true
      = .error "Missing required input: token" ∧
    getInput [] "file" false = .ok "" := by
  refine ⟨?_, ?_, ?_, ?_⟩
  · exact (getInput_required_spec [] "token").1 (by decide)
  · exact (getInput_required_spec [("INPUT_TOKEN", "   ")] "token").2.1 (by decide)
  · exact (getInput_required_spec [("INPUT_TOKEN", "")] "token").2.1 (by decide)
  · exact (getInput_required_spec [] "file").2.2 (by decide)

/-- C7: asset resolution succeeds only for the two supported operating
systems (`darwin`, `linux`) and the two supported architectures (`x64`,
`arm64`): any other platform fails with the unsupported-OS error, any other
architecture fails with the unsupported-architecture error, and in either
case `ensureYtt` (with no local binary) fails with an empty effect trace —
before any download is attempted. -/
theorem resolveYtt_unsupported_platform (p a v : String) (w : World) :
    (p ≠ "darwin" → p ≠ "linux" →
      resolveYttAsset p a v = .error ("Unsupported OS for ytt: " ++ p)) ∧
    ((p = "darwin" ∨ p = "linux") → a ≠ "x64" → a ≠ "arm64" →
      resolveYttAsset p a v = .error ("Unsupported architecture for ytt: " ++ a)) ∧
    (∀ e, w.yttExists = false → resolveYttAsset w.platform w.arch v = .error e →
      ensureYtt w v = (.error e, [])) := by
  refine ⟨?_, ?_, ?_⟩
  · intro h1 h2
    have b1 : (p == "darwin") = false := beq_eq_false_iff_ne.mpr h1
    have b2 : (p == "linux") = false := beq_eq_false_iff_ne.mpr h2
    simp [resolveYttAsset, b1, b2, Bind.bind, Except.bind]
  · intro hp h1 h2
    have b1 : (a == "x64") = false := beq_eq_false_iff_ne.mpr h1
    have b2 : (a == "arm64") = false := beq_eq_false_iff_ne.mpr h2
    rcases hp with h | h <;> subst h <;>
      simp [resolveYttAsset, b1, b2, Bind.bind, Except.bind]
  · intro e hex hr
    simp [ensureYtt, hex, hr]

/-- C7 witness: `win32` as platform and `ia32` as architecture are rejected,
and on `win32World` the provisioner fails with no download effect. -/
theorem resolveYtt_unsupported_platform_witness :
    resolveYttAsset "win32" "x64" "v0.48.0"
      = .error "Unsupported OS for ytt: win32" ∧
    resolveYttAsset "linux" "ia32" "v0.48.0"
      = .error "Unsupported architecture for ytt: ia32" ∧
    ensureYtt win32World "v0.48.0" = (.error "Unsupported OS for ytt: win32", []) := by
  refine ⟨?_, ?_, ?_⟩
  · exact (resolveYtt_unsupported_platform "win32" "x64" "v0.48.0" win32World).1
      (by decide) (by decide)
  · exact (resolveYtt_unsupported_platform "linux" "ia32" "v0.48.0" win32World).2.1
      (Or.inr rfl) (by decide) (by decide)
  · exact (resolveYtt_unsupported_platform "win32" "x64" "v0.48.0" win32World).2.2
      "Unsupported OS for ytt: win32" rfl (by decide)

/-- C8: in every run whose validation flag resolves to true, the Validator
runs before the Uploader: when validation fails, the pipeline's result is
exactly the validation error, the trace ends with the validator's effects
and contains no HTTP POST (the upload operation) anywhere; when validation
succeeds, the upload effects come strictly after the validator's effects in
the trace. -/
theorem validation_failure_aborts_without_upload
    (w : World) (cfg : Config) (raw hint : String) (aeffs : List Effect)
    (loaded : Loaded) (leffs : List Effect)
    (hconfig : configPhase w.env = .ok cfg)
    (hval : cfg.validate = true)
    (hguard : (cfg.template == "" && cfg.file == "") = false)
    (hacq : acquireDocument w cfg = (.ok (raw, hint), aeffs))
    (hload : loadDocument w.jsonParse w.yamlParse raw hint = (.ok loaded, leffs)) :
    (∀ (setup : ValidatorSetup) (e : String) (veffs : List Effect),
      validateSchemaRun setup w loaded.data cfg.schemaUrl = (.error e, veffs) →
      runPipeline setup w = (.error e, aeffs ++ leffs ++ veffs) ∧
      ∀ u b t, Effect.httpPost u b t ∉ (runPipeline setup w).2) ∧
    (∀ (setup : ValidatorSetup) (veffs : List Effect),
      validateSchemaRun setup w loaded.data cfg.schemaUrl = (.ok (), veffs) →
      (runPipeline setup w).2 =
        aeffs ++ leffs ++ veffs ++ (uploadDocument w loaded.data cfg.token).2) := by
  constructor
  · intro setup e veffs hvs
    have hrun : runPipeline setup w = (.error e, aeffs ++ leffs ++ veffs) := by
      simp [runPipeline, pipelineBody, hconfig, hguard, hacq, hload, hval, hvs]
    refine ⟨hrun, ?_⟩
    intro u b t
    rw [hrun]
    have ha := httpPost_not_mem_acquireDocument w cfg u b t
    rw [hacq] at ha
    have hl := httpPost_not_mem_loadDocument w.jsonParse w.yamlParse raw hint u b t
    rw [hload] at hl
    have hv := httpPost_not_mem_validateSchemaRun setup w loaded.data cfg.schemaUrl u b t
    rw [hvs] at hv
    simp only [Prod.snd] at ha hl hv
    simp [List.mem_append, ha, hl, hv]
  · intro setup veffs hvs
    rcases hu : uploadDocument w loaded.data cfg.token with ⟨ur, ueffs⟩
    cases ur <;>
      simp [runPipeline, pipelineBody, hconfig, hguard, hacq, hload, hval, hvs, hu]

/-- C8 witness: on `divergenceWorld` (validation enabled), with the source
validator stack the run aborts with the validation error and its trace
contains no HTTP POST; with the bundled validator stack validation succeeds
and the upload POST appears only after the validator's effects. -/
theorem validation_failure_aborts_without_upload_witness :
    (runPipeline srcValidatorSetup divergenceWorld).1 =
      .error ("Schema validation failed:\n"
        ++ "data reported invalid under the non-draft-04 compiler") ∧
    Effect.httpPost importEndpoint "\x7b\"a\":1\x7d" "t"
      ∉ (runPipeline srcValidatorSetup divergenceWorld).2 ∧
    (runPipeline distValidatorSetup divergenceWorld).2 =
      [Effect.readFile "doc.json"] ++ []
        ++ [Effect.httpGet defaultSchemaUrl,
            Effect.ensureMod "ajv-draft-04" "1.0.0",
            Effect.ensureMod "ajv-formats" "2.1.1"]
        ++ [Effect.httpPost importEndpoint "\x7b\"a\":1\x7d" "t"] := by
  have h := validation_failure_aborts_without_upload divergenceWorld
    ⟨"doc.json", "", "", "t", true, defaultSchemaUrl, defaultYttVersion, ""⟩
    "\x7b\"a\": 1\x7d" "doc.json" [Effect.readFile "doc.json"]
    ⟨sampleDoc, Format.json⟩ []
    rfl rfl rfl rfl rfl
  have h1 := h.1 srcValidatorSetup
    ("Schema validation failed:\n"
      ++ "data reported invalid under the non-draft-04 compiler")
    [Effect.httpGet defaultSchemaUrl, Effect.ensureMod "ajv" "8.12.0",
     Effect.ensureMod "ajv-formats" "2.1.1"]
    rfl
  have h2 := h.2 distValidatorSetup
    [Effect.httpGet defaultSchemaUrl, Effect.ensureMod "ajv-draft-04" "1.0.0",
     Effect.ensureMod "ajv-formats" "2.1.1"]
    rfl
  exact ⟨by rw [h1.1], h1.2 importEndpoint "\x7b\"a\":1\x7d" "t", by rw [h2]; rfl⟩

/-- C9: when the fetched schema compiles and the validator reports the
non-empty ordered list of violations `errs`, the Validator fails with a
message that is exactly the newline-join of the header line and the
violations in reported order — one line per violation; both copies pass
`allErrors: true`, collecting every violation in one pass. -/
theorem schema_validation_error_one_line_per_violation (setup : ValidatorSetup)
    (w : World) (doc schema : Json) (url : String) (errs : List String)
    (hok : (w.fetch url).ok = true)
    (hparse : w.jsonParse (w.fetch url).body = .ok schema)
    (herrs : w.validatorErrors setup.validatorModule schema doc = errs)
    (hne : errs ≠ []) :
    (validateSchemaRun setup w doc url).1 =
      .error (joinSep "\n" ("Schema validation failed:" :: errs)) ∧
    srcValidatorSetup.options.allErrors = true ∧
    distValidatorSetup.options.allErrors = true := by
  have hmain : (validateSchemaRun setup w doc url).1 =
      .error ("Schema validation failed:\n" ++ joinSep "\n" errs) := by
    simp [validateSchemaRun, hok, hparse, herrs, hne]
  refine ⟨?_, rfl, rfl⟩
  rw [hmain, ← joinSep_cons "\n" "Schema validation failed:" errs hne]
  rw [show ("Schema validation failed:" : String) ++ "\n"
    = "Schema validation failed:\n" from by decide]

/-- C9 witness: three independent violations produce a message whose lines
are the header followed by the three violations in reported order. -/
theorem schema_validation_error_one_line_per_violation_witness :
    (validateSchemaRun srcValidatorSetup threeErrWorld sampleDoc defaultSchemaUrl).1 =
      .error "Schema validation failed:\ne1\ne2\ne3" ∧
    (("Schema validation failed:" : String) :: ["e1", "e2", "e3"]).length = 3 + 1 := by
  refine ⟨?_, rfl⟩
  have h := (schema_validation_error_one_line_per_violation srcValidatorSetup
    threeErrWorld sampleDoc sampleDoc defaultSchemaUrl ["e1", "e2", "e3"]
    rfl rfl rfl (by decide)).1
  rw [h]
  decide

/-- C10: the required-token check happens during the configuration phase,
before the file/template presence check and before any file read, render or
network call: for every world whose `INPUT_TOKEN` is absent or blank, the
run fails with `Missing required input: token` and an empty effect trace —
even when neither `file` nor `template` is configured, this message (and not
the either-file-or-template one) is produced. -/
theorem missing_token_checked_first (setup : ValidatorSetup) (w : World)
    (h : List.lookup "INPUT_TOKEN" w.env = none ∨
         jsTrim ((List.lookup "INPUT_TOKEN" w.env).getD "") = "") :
    runPipeline setup w = (.error "Missing required input: token", []) ∧
    ("Missing required input: token" : String)
      ≠ "Provide either \x27file\x27 or \x27template\x27." := by
  have hkey : inputKey "token" = "INPUT_TOKEN" := by decide
  have htok : getInput w.env "token" true = .error "Missing required input: token" := by
    rcases h with h | h <;> simp [getInput, hkey, h]
  refine ⟨?_, by decide⟩
  simp [runPipeline, configPhase, htok, Bind.bind, Except.bind]

/-- C10 witness: with an entirely empty environment — no token, no file, no
template — the run fails with the missing-token message and performs no
effect. -/
theorem missing_token_checked_first_witness :
    runPipeline srcValidatorSetup emptyEnvWorld
      = (.error "Missing required input: token", []) ∧
    List.lookup "INPUT_FILE" emptyEnvWorld.env = none ∧
    List.lookup "INPUT_TEMPLATE" emptyEnvWorld.env = none := by
  refine ⟨?_, rfl, rfl⟩
  exact (missing_token_checked_first srcValidatorSetup emptyEnvWorld (Or.inl rfl)).1

end ApimAction
